import Mathlib

/-!
Verification of the dual-box flux reconstruction core of ViennaSHE
(file viennashe/util/dual_box_flux.hpp), shallowly embedded in Lean 4.

The mesh is an external collaborator (the viennagrid C API): it is
modelled as a structure of read-only query functions (centroid,
boundary elements, coboundary elements, dimensions).  Numeric values
(viennagrid_numeric, i.e. double) are modelled as rationals, which is
exact for the sign comparisons and the small dense linear algebra the
code performs.  C++ exceptions are modelled with the Except monad, and
the cell-setter functor is modelled by returning the list of setter
invocations the routine performs.
-/

/-- Identifier of a mesh element (viennagrid_element_id). -/
abbrev ElementId := Nat

/-- The mesh topology accessor, an external collaborator of the core.
`centroid e i` is the i-th coordinate of the centroid of element `e`,
as written by viennagrid_element_centroid into a coordinate buffer.
`boundaryFacets c` is the list of boundary elements of cell `c` at
dimension cellDim - 1, and `coboundaryCells f` the list of coboundary
elements of facet `f` at dimension cellDim, in the order the
viennagrid queries return them. -/
structure Mesh where
  geoDim : Nat
  cellDim : Nat
  centroid : ElementId → Nat → ℚ
  boundaryFacets : ElementId → List ElementId
  coboundaryCells : ElementId → List ElementId

/-- Error taxonomy of the flux-reconstruction core: thrown C++
exceptions (unsupported dimension, unimplemented entry point), a
failing dense solve, and a failing facet-flux accessor functor. -/
inductive FluxError where
  | UnsupportedDimension
  | SingularSystem
  | AccessorFailure
  | NotImplemented
deriving DecidableEq, Repr

namespace viennashe

namespace util

namespace detail

/-- Embedding of detail::outer_cell_normal_at_facet (1d case): both
centroids are queried, a zero-initialized 3-buffer `ret` is filled with
ret[0] = 1.0 when the cell centroid's first coordinate is strictly
below the facet centroid's first coordinate and ret[0] = -1.0
otherwise, and `ret` is returned. -/
def outer_cell_normal_at_facet (mesh : Mesh) (cell facet : ElementId) : List ℚ :=
  let centroid_cell := mesh.centroid cell
  let centroid_facet := mesh.centroid facet
  if centroid_cell 0 < centroid_facet 0 then
    [1, 0, 0]
  else
    [-1, 0, 0]

end detail

/-- Embedding of viennashe::util::outer_cell_normal_at_facet: queries
the cell dimension, dispatches to the 1d implementation when it is 1,
and otherwise throws (the 2d/3d cases are not implemented). -/
def outer_cell_normal_at_facet (mesh : Mesh) (cell facet : ElementId) :
    Except FluxError (List ℚ) :=
  let cell_dim := mesh.cellDim
  if cell_dim = 1 then
    Except.ok (detail.outer_cell_normal_at_facet mesh cell facet)
  else
    Except.error FluxError.UnsupportedDimension

end util

end viennashe

/-! Concrete meshes used as witnesses.  `mesh1d` is a 1-D interval mesh
with two cells (ids 10, 11) and three facets (ids 0, 1, 2): cell 10
spans [0,1] with centroid 1/2, cell 11 spans [1,2] with centroid 3/2,
and the shared interior facet 1 sits at coordinate 1. -/

/-- Centroid table of the witness mesh: facet j at coordinate j, cell
10 at 1/2, cell 11 at 3/2; all further buffer entries are zero. -/
def mesh1dCentroid (e : ElementId) (i : Nat) : ℚ :=
  if i = 0 then
    if e = 10 then 1/2 else if e = 11 then 3/2 else (e : ℚ)
  else 0

/-- A concrete 1-D mesh with two cells sharing interior facet 1. -/
def mesh1d : Mesh where
  geoDim := 1
  cellDim := 1
  centroid := mesh1dCentroid
  boundaryFacets := fun c => if c = 10 then [0, 1] else if c = 11 then [1, 2] else []
  coboundaryCells := fun f => if f = 0 then [10] else if f = 1 then [10, 11] else if f = 2 then [11] else []

/-- A concrete mesh whose cell dimension is 2 (unsupported by the
normal estimator). -/
def mesh2d : Mesh where
  geoDim := 2
  cellDim := 2
  centroid := fun _ _ => 0
  boundaryFacets := fun _ => []
  coboundaryCells := fun _ => []

namespace viennashe

namespace util

/-- One iteration of the facet loop of dual_box_flux_to_cell, folded
over the facet list: for each facet the flux accessor is queried (a
throwing functor propagates as an error), the outer normal is computed
via outer_cell_normal_at_facet (which may throw), and the flux
contribution is negated when cells_on_facet_begin[0], the first entry
of the facet coboundary list, is not the current cell.  Returns the
normals and (orientation-corrected) flux contributions in facet
order. -/
def gatherFacetData (mesh : Mesh) (cell : ElementId)
    (facet_access : ElementId → Except FluxError ℚ) :
    List ElementId → Except FluxError (List (List ℚ) × List ℚ)
  | [] => Except.ok ([], [])
  | focit :: rest =>
    match facet_access focit with
    | Except.error e => Except.error e
    | Except.ok flux =>
      match outer_cell_normal_at_facet mesh cell focit with
      | Except.error e => Except.error e
      | Except.ok normal =>
        let flux := if (mesh.coboundaryCells focit).head? = some cell then flux else -flux
        match gatherFacetData mesh cell facet_access rest with
        | Except.error e => Except.error e
        | Except.ok (normals, fluxes) => Except.ok (normal :: normals, flux :: fluxes)

/-- The (i, j) entry of the mass matrix M assembled by
dual_box_flux_to_cell: the accumulation loop
`for k: M(i,j) += normals[k][i] * normals[k][j]` starting from the
zero-initialized dense matrix. -/
def Mentry (normals : List (List ℚ)) (i j : Nat) : ℚ :=
  normals.foldl (fun acc n => acc + n.getD i 0 * n.getD j 0) 0

/-- The i-th entry of the right-hand side b assembled by
dual_box_flux_to_cell: the accumulation loop
`for k: b[i] += normals[k][i] * flux_contributions[k]` starting from
the zero-initialized vector. -/
def bentry (normals : List (List ℚ)) (fluxes : List ℚ) (i : Nat) : ℚ :=
  (normals.zip fluxes).foldl (fun acc p => acc + p.1.getD i 0 * p.2) 0

/-- Deleting row r and column c of a matrix given as an entry
function. -/
def minorAt (M : Nat → Nat → ℚ) (r c : Nat) : Nat → Nat → ℚ :=
  fun i j => M (if i < r then i else i + 1) (if j < c then j else j + 1)

/-- Determinant of the leading n-by-n block of an entry function, by
Laplace expansion along the first column. -/
def denseDet : Nat → (Nat → Nat → ℚ) → ℚ
  | 0, _ => 1
  | n + 1, M =>
      ((List.range (n + 1)).map
        (fun r => (-1 : ℚ) ^ r * M r 0 * denseDet n (minorAt M r 0))).sum

/-- Replacing column c of a matrix entry function by the vector b. -/
def replaceCol (M : Nat → Nat → ℚ) (c : Nat) (b : Nat → ℚ) : Nat → Nat → ℚ :=
  fun i j => if j = c then b i else M i j

end util

namespace solvers

/-- Modelled from the spec: the dense local solve backing
viennashe::solvers::solve is not part of the provided sources (only
its forward declaration is included).  Per the spec it is the service
`solve(matrix, vector) -> vector` on the small dense system of size
equal to the geometric dimension, which fails explicitly with
SingularSystem when the matrix is singular (determinant zero) and
otherwise returns the solution of M x = b, here by Cramer's rule. -/
def solve (n : Nat) (M : Nat → Nat → ℚ) (b : Nat → ℚ) :
    Except FluxError (List ℚ) :=
  let d := viennashe.util.denseDet n M
  if d = 0 then Except.error FluxError.SingularSystem
  else Except.ok ((List.range n).map
    (fun i => viennashe.util.denseDet n (viennashe.util.replaceCol M i b) / d))

end solvers

namespace util

/-- Embedding of the per-cell dual_box_flux_to_cell: queries the
geometric and cell dimensions, enumerates the facets bounding the
cell, runs the facet loop (gatherFacetData), assembles the dense
system M, b entrywise over indices below the geometric dimension
(Mentry, bentry), calls the dense solve, copies the result over the
zero-initialized vector to_value, and finally invokes the cell setter
once with (cell, to_value).  The setter functor is modelled by the
returned list of setter invocations; any thrown error aborts the
routine with no invocation. -/
def dual_box_flux_to_cell (mesh : Mesh) (cell : ElementId)
    (facet_access : ElementId → Except FluxError ℚ) :
    Except FluxError (List (ElementId × List ℚ)) :=
  let geo_dim := mesh.geoDim
  let facets := mesh.boundaryFacets cell
  match gatherFacetData mesh cell facet_access facets with
  | Except.error e => Except.error e
  | Except.ok (normals, flux_contributions) =>
    match viennashe.solvers.solve geo_dim (fun i j => Mentry normals i j)
        (fun i => bentry normals flux_contributions i) with
    | Except.error e => Except.error e
    | Except.ok result =>
      let to_value := (List.range geo_dim).map (fun i => result.getD i 0)
      Except.ok [(cell, to_value)]

/-- Embedding of the whole-mesh overload of dual_box_flux_to_cell: its
body is commented out in the source and it unconditionally throws a
not-implemented error, never touching the setter or the accessor. -/
def dual_box_flux_to_cell_mesh (mesh : Mesh)
    (facet_accessor : ElementId → Except FluxError ℚ) :
    Except FluxError (List (ElementId × List ℚ)) :=
  Except.error FluxError.NotImplemented

end util

end viennashe

/-- Claim C3: on a 1-D mesh, for a facet bounding the cell, the outer
normal is the unit axis-aligned vector whose first component is +1
when the cell centroid's coordinate is strictly less than the facet
centroid's coordinate and -1 otherwise. -/
theorem outer_normal_1d_sign (mesh : Mesh) (cell facet : ElementId)
    (hdim : mesh.cellDim = 1) (hbound : facet ∈ mesh.boundaryFacets cell) :
    viennashe.util.outer_cell_normal_at_facet mesh cell facet =
      Except.ok [(if mesh.centroid cell 0 < mesh.centroid facet 0 then (1 : ℚ) else -1), 0, 0] := by
  unfold viennashe.util.outer_cell_normal_at_facet viennashe.util.detail.outer_cell_normal_at_facet
  simp only [hdim, if_pos rfl]
  by_cases h : mesh.centroid cell 0 < mesh.centroid facet 0 <;> simp [h]

/-- Witness for C3: facet 0 is a boundary facet of cell 10 in the
concrete 1-D mesh, and since the cell centroid 1/2 is not below the
facet centroid 0 the returned normal is [-1, 0, 0]. -/
theorem outer_normal_1d_sign_witness :
    mesh1d.cellDim = 1 ∧ (0 : ElementId) ∈ mesh1d.boundaryFacets 10 ∧
      viennashe.util.outer_cell_normal_at_facet mesh1d 10 0 =
        Except.ok [(if mesh1d.centroid 10 0 < mesh1d.centroid 0 0 then (1 : ℚ) else -1), 0, 0] :=
  ⟨rfl, by decide, outer_normal_1d_sign mesh1d 10 0 rfl (by decide)⟩

/-- Claim C6: on a mesh whose cell dimension is not 1, the normal
estimator fails with UnsupportedDimension; it never returns a zero
vector as a success value. -/
theorem outer_normal_unsupported_dim (mesh : Mesh) (cell facet : ElementId)
    (hdim : mesh.cellDim ≠ 1) :
    viennashe.util.outer_cell_normal_at_facet mesh cell facet =
      Except.error FluxError.UnsupportedDimension := by
  unfold viennashe.util.outer_cell_normal_at_facet
  simp [hdim]

/-- Witness for C6: the concrete 2-D mesh has cell dimension 2, and the
estimator fails on it with UnsupportedDimension. -/
theorem outer_normal_unsupported_dim_witness :
    mesh2d.cellDim ≠ 1 ∧
      viennashe.util.outer_cell_normal_at_facet mesh2d 0 1 =
        Except.error FluxError.UnsupportedDimension :=
  ⟨by decide, outer_normal_unsupported_dim mesh2d 0 1 (by decide)⟩

/-- Claim C9: on a 1-D mesh, when two cells share an interior facet and
their centroids lie on opposite sides of the facet centroid, the two
outer normals are exactly antiparallel: their componentwise sum is the
zero vector. -/
theorem outer_normal_antiparallel (mesh : Mesh) (cell1 cell2 facet : ElementId)
    (hdim : mesh.cellDim = 1)
    (hsides : (mesh.centroid cell1 0 < mesh.centroid facet 0 ∧
                mesh.centroid facet 0 < mesh.centroid cell2 0) ∨
              (mesh.centroid cell2 0 < mesh.centroid facet 0 ∧
                mesh.centroid facet 0 < mesh.centroid cell1 0)) :
    ∃ n1 n2 : List ℚ,
      viennashe.util.outer_cell_normal_at_facet mesh cell1 facet = Except.ok n1 ∧
      viennashe.util.outer_cell_normal_at_facet mesh cell2 facet = Except.ok n2 ∧
      List.zipWith (· + ·) n1 n2 = [0, 0, 0] := by
  unfold viennashe.util.outer_cell_normal_at_facet viennashe.util.detail.outer_cell_normal_at_facet
  simp only [hdim, if_pos rfl]
  rcases hsides with ⟨h1, h2⟩ | ⟨h1, h2⟩
  · exact ⟨[1, 0, 0], [-1, 0, 0], by simp [h1], by simp [not_lt.mpr (le_of_lt h2)], by norm_num⟩
  · exact ⟨[-1, 0, 0], [1, 0, 0], by simp [not_lt.mpr (le_of_lt h2)], by simp [h1], by norm_num⟩

/-- Witness for C9: in the concrete 1-D mesh, cells 10 and 11 share
facet 1 and their centroids 1/2 and 3/2 straddle its coordinate 1, so
the two normals sum to the zero vector. -/
theorem outer_normal_antiparallel_witness :
    ∃ n1 n2 : List ℚ,
      viennashe.util.outer_cell_normal_at_facet mesh1d 10 1 = Except.ok n1 ∧
      viennashe.util.outer_cell_normal_at_facet mesh1d 11 1 = Except.ok n2 ∧
      List.zipWith (· + ·) n1 n2 = [0, 0, 0] :=
  outer_normal_antiparallel mesh1d 10 11 1 rfl (Or.inl ⟨by norm_num [mesh1d, mesh1dCentroid], by norm_num [mesh1d, mesh1dCentroid]⟩)

/-- Claim C10: on a 1-D mesh, when the cell centroid coordinate equals
the facet centroid coordinate, the estimator still succeeds and the
strict comparison resolves the tie to the -1 branch: the result is the
unit vector with first component -1 (not an error, not zero). -/
theorem outer_normal_tie_goes_negative (mesh : Mesh) (cell facet : ElementId)
    (hdim : mesh.cellDim = 1)
    (htie : mesh.centroid cell 0 = mesh.centroid facet 0) :
    viennashe.util.outer_cell_normal_at_facet mesh cell facet =
      Except.ok [-1, 0, 0] := by
  unfold viennashe.util.outer_cell_normal_at_facet viennashe.util.detail.outer_cell_normal_at_facet
  simp [hdim, htie]

/-- Witness for C10: facet 2 of the concrete 1-D mesh sits at
coordinate 2; probing the estimator from a cell whose centroid is also
at coordinate 2 (element 2 itself) yields [-1, 0, 0]. -/
theorem outer_normal_tie_goes_negative_witness :
    mesh1d.centroid 2 0 = mesh1d.centroid 2 0 ∧
      viennashe.util.outer_cell_normal_at_facet mesh1d 2 2 = Except.ok [-1, 0, 0] :=
  ⟨rfl, outer_normal_tie_goes_negative mesh1d 2 2 rfl rfl⟩

/-- Helper: on success, the facet loop produces one normal and one flux
contribution per facet, and the flux contribution at each index is the
raw accessor value with the orientation flip applied exactly when the
facet coboundary list does not list the cell first. -/
theorem gather_ok_spec (mesh : Mesh) (cell : ElementId)
    (fa : ElementId → Except FluxError ℚ) :
    ∀ (facets : List ElementId) (normals : List (List ℚ)) (fluxes : List ℚ),
      viennashe.util.gatherFacetData mesh cell fa facets = Except.ok (normals, fluxes) →
      normals.length = facets.length ∧ fluxes.length = facets.length ∧
      ∀ k (hk : k < facets.length),
        ∃ raw, fa (facets.get ⟨k, hk⟩) = Except.ok raw ∧
          fluxes.getD k 0 =
            (if (mesh.coboundaryCells (facets.get ⟨k, hk⟩)).head? = some cell
             then raw else -raw) := by
  intro facets
  induction facets with
  | nil =>
    intro normals fluxes h
    simp only [viennashe.util.gatherFacetData] at h
    injection h with h
    injection h with h1 h2
    subst h1; subst h2
    exact ⟨rfl, rfl, fun k hk => absurd hk (by simp)⟩
  | cons focit rest ih =>
    intro normals fluxes h
    simp only [viennashe.util.gatherFacetData] at h
    cases hfa : fa focit with
    | error e => rw [hfa] at h; exact absurd h (by simp)
    | ok raw =>
      rw [hfa] at h
      cases hn : viennashe.util.outer_cell_normal_at_facet mesh cell focit with
      | error e => rw [hn] at h; simp at h
      | ok normal =>
        rw [hn] at h
        cases hrest : viennashe.util.gatherFacetData mesh cell fa rest with
        | error e => rw [hrest] at h; simp at h
        | ok pr =>
          obtain ⟨ns, fls⟩ := pr
          rw [hrest] at h
          simp only at h
          injection h with h
          injection h with h1 h2
          subst h1; subst h2
          obtain ⟨hlen1, hlen2, hflux⟩ := ih ns fls hrest
          refine ⟨by simp [hlen1], by simp [hlen2], ?_⟩
          intro k hk
          cases k with
          | zero => exact ⟨raw, hfa, by by_cases hc : (mesh.coboundaryCells focit).head? = some cell <;> simp [hc]⟩
          | succ k =>
            have hk2 : k < rest.length := by simpa using Nat.lt_of_succ_lt_succ hk
            obtain ⟨r, hr1, hr2⟩ := hflux k hk2
            exact ⟨r, hr1, by simpa using hr2⟩

/-- Claim C1: in the per-cell dual_box_flux_to_cell facet loop, for
every bounding facet whose coboundary cell list does not list this
cell first, the scalar flux value obtained from the facet accessor is
negated before entering the assembly arrays; for facets that do list
the cell first it enters unchanged. -/
theorem flux_orientation_flip (mesh : Mesh) (cell : ElementId)
    (fa : ElementId → Except FluxError ℚ)
    (normals : List (List ℚ)) (fluxes : List ℚ)
    (h : viennashe.util.gatherFacetData mesh cell fa (mesh.boundaryFacets cell) =
      Except.ok (normals, fluxes))
    (k : Nat) (hk : k < (mesh.boundaryFacets cell).length) :
    ∃ raw, fa ((mesh.boundaryFacets cell).get ⟨k, hk⟩) = Except.ok raw ∧
      fluxes.getD k 0 =
        (if (mesh.coboundaryCells ((mesh.boundaryFacets cell).get ⟨k, hk⟩)).head? = some cell
         then raw else -raw) :=
  (gather_ok_spec mesh cell fa (mesh.boundaryFacets cell) normals fluxes h).2.2 k hk

/-- A facet accessor that returns the constant flux q for every facet
and never fails. -/
def constFlux (q : ℚ) : ElementId → Except FluxError ℚ := fun _ => Except.ok q

/-- Witness for C1: in the concrete 1-D mesh, cell 11 bounds facets 1
and 2; the coboundary list of facet 1 is [10, 11], which does not list
cell 11 first, so the raw flux 5 recorded for facet 1 is negated. -/
theorem flux_orientation_flip_witness :
    ∃ raw, constFlux 5 ((mesh1d.boundaryFacets 11).get ⟨0, by decide⟩) = Except.ok raw ∧
      ([-5, 5] : List ℚ).getD 0 0 =
        (if (mesh1d.coboundaryCells ((mesh1d.boundaryFacets 11).get ⟨0, by decide⟩)).head? = some 11
         then raw else -raw) :=
  flux_orientation_flip mesh1d 11 (constFlux 5) [[-1, 0, 0], [1, 0, 0]] [-5, 5]
    (by simp [viennashe.util.gatherFacetData, viennashe.util.outer_cell_normal_at_facet, viennashe.util.detail.outer_cell_normal_at_facet, mesh1d, constFlux, mesh1dCentroid]; norm_num) 0 (by decide)

/-- Helper: folding addition of a mapped value over a list, starting
from an accumulator, yields the accumulator plus the sum of the mapped
list. -/
theorem foldl_add_eq_sum {α : Type} (g : α → ℚ) (l : List α) (c : ℚ) :
    l.foldl (fun acc x => acc + g x) c = c + (l.map g).sum := by
  induction l generalizing c with
  | nil => simp
  | cons a t ih => simp [ih, add_assoc]

/-- Claim C2: on success of the facet loop, the dense system handed to
the solver satisfies M(i, j) = sum over bounding facets of
n_f[i] * n_f[j] and b[i] = sum over bounding facets of n_f[i] times
the orientation-corrected flux, for all indices below the geometric
dimension; one normal and one flux contribution is gathered per
bounding facet. -/
theorem assembly_normal_equations (mesh : Mesh) (cell : ElementId)
    (fa : ElementId → Except FluxError ℚ)
    (normals : List (List ℚ)) (fluxes : List ℚ)
    (h : viennashe.util.gatherFacetData mesh cell fa (mesh.boundaryFacets cell) =
      Except.ok (normals, fluxes))
    (i j : Nat) (hi : i < mesh.geoDim) (hj : j < mesh.geoDim) :
    normals.length = (mesh.boundaryFacets cell).length ∧
    fluxes.length = (mesh.boundaryFacets cell).length ∧
    viennashe.util.Mentry normals i j =
      (normals.map (fun n => n.getD i 0 * n.getD j 0)).sum ∧
    viennashe.util.bentry normals fluxes i =
      ((normals.zip fluxes).map (fun p => p.1.getD i 0 * p.2)).sum := by
  obtain ⟨h1, h2, _⟩ := gather_ok_spec mesh cell fa (mesh.boundaryFacets cell) normals fluxes h
  refine ⟨h1, h2, ?_, ?_⟩
  · unfold viennashe.util.Mentry
    rw [foldl_add_eq_sum (fun n => n.getD i 0 * n.getD j 0) normals 0]
    simp
  · unfold viennashe.util.bentry
    rw [foldl_add_eq_sum (fun p => p.1.getD i 0 * p.2) (normals.zip fluxes) 0]
    simp

/-- Witness for C2: concrete evaluation on cell 10 of the 1-D mesh
with unit fluxes; the assembled 1-by-1 system is M(0,0) = 2 and
b[0] = -1 + 1 = 0, matching the sums. -/
theorem assembly_normal_equations_witness :
    ([[-1, 0, 0], [1, 0, 0]] : List (List ℚ)).length = (mesh1d.boundaryFacets 10).length ∧
    ([1, 1] : List ℚ).length = (mesh1d.boundaryFacets 10).length ∧
    viennashe.util.Mentry [[-1, 0, 0], [1, 0, 0]] 0 0 =
      (([[-1, 0, 0], [1, 0, 0]] : List (List ℚ)).map (fun n => n.getD 0 0 * n.getD 0 0)).sum ∧
    viennashe.util.bentry [[-1, 0, 0], [1, 0, 0]] [1, 1] 0 =
      ((([[-1, 0, 0], [1, 0, 0]] : List (List ℚ)).zip ([1, 1] : List ℚ)).map
        (fun p => p.1.getD 0 0 * p.2)).sum :=
  assembly_normal_equations mesh1d 10 (constFlux 1) [[-1, 0, 0], [1, 0, 0]]
    [1, 1] (by simp [viennashe.util.gatherFacetData, viennashe.util.outer_cell_normal_at_facet, viennashe.util.detail.outer_cell_normal_at_facet, mesh1d, constFlux, mesh1dCentroid]; norm_num) 0 0 (by decide) (by decide)

/-- A 1-D interval mesh embedded in two geometric dimensions: every
facet normal is parallel to the first axis, so the accumulated 2-by-2
mass matrix has a zero second row and column and is singular. -/
def mesh1din2 : Mesh where
  geoDim := 2
  cellDim := 1
  centroid := mesh1dCentroid
  boundaryFacets := fun c => if c = 10 then [0, 1] else if c = 11 then [1, 2] else []
  coboundaryCells := fun f => if f = 0 then [10] else if f = 1 then [10, 11] else if f = 2 then [11] else []

/-- Claim C4: when the bounding facets provide fewer independent
normals than the geometric dimension, so that the accumulated matrix M
is singular (zero determinant), dual_box_flux_to_cell fails with the
SingularSystem error; it returns no flux vector and performs no setter
invocation. -/
theorem dual_box_flux_singular (mesh : Mesh) (cell : ElementId)
    (fa : ElementId → Except FluxError ℚ)
    (normals : List (List ℚ)) (fluxes : List ℚ)
    (h : viennashe.util.gatherFacetData mesh cell fa (mesh.boundaryFacets cell) =
      Except.ok (normals, fluxes))
    (hsing : viennashe.util.denseDet mesh.geoDim
      (fun i j => viennashe.util.Mentry normals i j) = 0) :
    viennashe.util.dual_box_flux_to_cell mesh cell fa =
      Except.error FluxError.SingularSystem := by
  simp only [viennashe.util.dual_box_flux_to_cell]
  rw [h]
  simp [viennashe.solvers.solve, hsing]

/-- Witness for C4: on the 1-D mesh embedded in two geometric
dimensions, the facet loop for cell 10 succeeds with both normals
parallel to the first axis, the determinant of the assembled matrix is
zero, and the reconstruction fails with SingularSystem. -/
theorem dual_box_flux_singular_witness :
    viennashe.util.dual_box_flux_to_cell mesh1din2 10 (constFlux 1) =
      Except.error FluxError.SingularSystem :=
  dual_box_flux_singular mesh1din2 10 (constFlux 1) [[-1, 0, 0], [1, 0, 0]] [1, 1]
    (by simp [viennashe.util.gatherFacetData, viennashe.util.outer_cell_normal_at_facet,
      viennashe.util.detail.outer_cell_normal_at_facet, mesh1din2, constFlux, mesh1dCentroid]
        ; norm_num)
    (by norm_num [viennashe.util.denseDet, viennashe.util.minorAt, viennashe.util.Mentry,
      mesh1din2])

/-- Helper: a successful run of dual_box_flux_to_cell decomposes into
a successful facet loop, a successful dense solve on the assembled
system, and exactly one setter invocation carrying the solution copied
over the zero-initialized vector to_value. -/
theorem dual_box_ok_elim (mesh : Mesh) (cell : ElementId)
    (fa : ElementId → Except FluxError ℚ) (invs : List (ElementId × List ℚ))
    (h : viennashe.util.dual_box_flux_to_cell mesh cell fa = Except.ok invs) :
    ∃ normals fluxes result,
      viennashe.util.gatherFacetData mesh cell fa (mesh.boundaryFacets cell) =
        Except.ok (normals, fluxes) ∧
      viennashe.solvers.solve mesh.geoDim (fun i j => viennashe.util.Mentry normals i j)
        (fun i => viennashe.util.bentry normals fluxes i) = Except.ok result ∧
      invs = [(cell, (List.range mesh.geoDim).map (fun i => result.getD i 0))] := by
  simp only [viennashe.util.dual_box_flux_to_cell] at h
  cases hg : viennashe.util.gatherFacetData mesh cell fa (mesh.boundaryFacets cell) with
  | error e => rw [hg] at h; simp at h
  | ok pr =>
    obtain ⟨ns, fls⟩ := pr
    rw [hg] at h
    simp only at h
    cases hs : viennashe.solvers.solve mesh.geoDim (fun i j => viennashe.util.Mentry ns i j)
        (fun i => viennashe.util.bentry ns fls i) with
    | error e => rw [hs] at h; simp at h
    | ok result =>
      rw [hs] at h
      simp only at h
      injection h with h
      exact ⟨ns, fls, result, rfl, hs, h.symm⟩

/-- Claim C5: dual_box_flux_to_cell is atomic with respect to its
output: a successful run implies that the flux accessor succeeded on
every bounding facet and that the cell setter was invoked exactly
once, with this cell, after the facet loop; conversely a failing
accessor on any bounding facet fails the whole reconstruction, and the
error result carries no setter invocation. -/
theorem dual_box_flux_atomic (mesh : Mesh) (cell : ElementId)
    (fa : ElementId → Except FluxError ℚ) :
    (∀ invs, viennashe.util.dual_box_flux_to_cell mesh cell fa = Except.ok invs →
      (∀ f ∈ mesh.boundaryFacets cell, ∃ r, fa f = Except.ok r) ∧
      ∃ v, invs = [(cell, v)]) ∧
    ((∃ f ∈ mesh.boundaryFacets cell, ∃ e, fa f = Except.error e) →
      ∃ e, viennashe.util.dual_box_flux_to_cell mesh cell fa = Except.error e) := by
  have key : ∀ invs, viennashe.util.dual_box_flux_to_cell mesh cell fa = Except.ok invs →
      (∀ f ∈ mesh.boundaryFacets cell, ∃ r, fa f = Except.ok r) ∧
      ∃ v, invs = [(cell, v)] := by
    intro invs h
    obtain ⟨ns, fls, result, hg, hs, hinvs⟩ := dual_box_ok_elim mesh cell fa invs h
    obtain ⟨hl1, hl2, hsp⟩ := gather_ok_spec mesh cell fa (mesh.boundaryFacets cell) ns fls hg
    refine ⟨?_, _, hinvs⟩
    intro f hf
    obtain ⟨⟨kv, hk⟩, hget⟩ := List.mem_iff_get.mp hf
    obtain ⟨raw, hraw, _⟩ := hsp kv hk
    rw [hget] at hraw
    exact ⟨raw, hraw⟩
  refine ⟨key, ?_⟩
  intro ⟨f, hf, e, he⟩
  cases hres : viennashe.util.dual_box_flux_to_cell mesh cell fa with
  | error e2 => exact ⟨e2, rfl⟩
  | ok invs =>
    obtain ⟨r, hr⟩ := (key invs hres).1 f hf
    rw [he] at hr
    exact absurd hr (by simp)

/-- A facet accessor that fails on every facet, modelling a throwing
flux functor. -/
def failFlux : ElementId → Except FluxError ℚ :=
  fun _ => Except.error FluxError.AccessorFailure

/-- Witness for C5: on the concrete 1-D mesh, an accessor that fails
on facet 0 (a bounding facet of cell 10) makes the whole per-cell
reconstruction return an error, so the setter is never invoked. -/
theorem dual_box_flux_atomic_witness :
    ∃ e, viennashe.util.dual_box_flux_to_cell mesh1d 10 failFlux = Except.error e :=
  (dual_box_flux_atomic mesh1d 10 failFlux).2
    ⟨0, by decide, FluxError.AccessorFailure, rfl⟩

/-- Claim C7: the whole-mesh overload of dual_box_flux_to_cell fails
unconditionally with the not-implemented error; its result does not
depend on the facet accessor, and the error result carries no setter
invocation and no per-cell reconstruction. -/
theorem whole_mesh_unimplemented (mesh : Mesh)
    (fa : ElementId → Except FluxError ℚ) :
    viennashe.util.dual_box_flux_to_cell_mesh mesh fa =
      Except.error FluxError.NotImplemented ∧
    ∀ fb : ElementId → Except FluxError ℚ,
      viennashe.util.dual_box_flux_to_cell_mesh mesh fa =
        viennashe.util.dual_box_flux_to_cell_mesh mesh fb :=
  ⟨rfl, fun _ => rfl⟩

/-- Counterexample for C8: on the concrete 1-D mesh, whose geometric
dimension is 1, facet 0 bounds cell 10 and the estimator succeeds, yet
the returned vector has length 3, not the geometric dimension. -/
theorem outer_normal_length_counterexample :
    (0 : ElementId) ∈ mesh1d.boundaryFacets 10 ∧
    viennashe.util.outer_cell_normal_at_facet mesh1d 10 0 = Except.ok [-1, 0, 0] ∧
    ([-1, 0, 0] : List ℚ).length ≠ mesh1d.geoDim := by
  refine ⟨by decide, ?_, by decide⟩
  simp [viennashe.util.outer_cell_normal_at_facet,
    viennashe.util.detail.outer_cell_normal_at_facet, mesh1d, mesh1dCentroid]

/-- Claim C8 (amended): whenever outer_cell_normal_at_facet succeeds,
the returned vector has length 3, the size of the viennagrid
coordinate buffer it fills, regardless of the mesh's geometric
dimension. -/
theorem outer_normal_length_three (mesh : Mesh) (cell facet : ElementId) (v : List ℚ)
    (h : viennashe.util.outer_cell_normal_at_facet mesh cell facet = Except.ok v) :
    v.length = 3 := by
  simp only [viennashe.util.outer_cell_normal_at_facet,
    viennashe.util.detail.outer_cell_normal_at_facet] at h
  split at h
  · injection h with h
    subst h
    split <;> rfl
  · exact absurd h (by simp)

/-- Witness for C8 (amended): the estimator succeeds on cell 10 and
facet 0 of the concrete 1-D mesh and the vector it returns has length
3. -/
theorem outer_normal_length_three_witness :
    viennashe.util.outer_cell_normal_at_facet mesh1d 10 0 = Except.ok [-1, 0, 0] ∧
    ([-1, 0, 0] : List ℚ).length = 3 :=
  ⟨by simp [viennashe.util.outer_cell_normal_at_facet,
      viennashe.util.detail.outer_cell_normal_at_facet, mesh1d, mesh1dCentroid],
   outer_normal_length_three mesh1d 10 0 [-1, 0, 0]
    (by simp [viennashe.util.outer_cell_normal_at_facet,
      viennashe.util.detail.outer_cell_normal_at_facet, mesh1d, mesh1dCentroid])⟩
